import Mathlib

/-!
# Verification of the `bcrypt-user` credential-lifecycle library

A shallow embedding of the JavaScript sources of `node-bcrypt-user`
(`src/index.js`, which concatenates two historical variants of the module,
and `src/unnamed/part_000`, a third variant) together with proofs of the
behavioural properties claimed by the design specification.

The library orchestrates five operations (`find`, `exists`, `verifyPassword`,
`setPassword`, `register`) over an externally supplied storage resolver
(`find`/`insert`/`updateHash`) and the bcrypt primitive (`hash`/`compare`).
All collaborator calls are callback based; the embedding makes each
operation a pure function of the collaborator responses (an "oracle") and
returns the updated handle, the arguments delivered to the caller's
callback, and the trace of collaborator calls actually issued.

Variant naming:
* suffix `A` — the first half of `src/index.js` (lines 1–233): the variant
  with `_checkAllWithPassword`, `exists`, and `protectedProps`;
* suffix `B` — the second half of `src/index.js` (lines 234–465): the
  variant with `opts`, `_protectedDbKeys` and `_illegalDbKeys`;
* suffix `C` — `src/unnamed/part_000`: the variant whose constructor checks
  inline and whose `register` uses `find` instead of `exists`.
-/

/-- A JavaScript value, abstracted to the distinctions the sources test for:
`typeof x` being `"object"`, `"string"` or `"function"`, string contents,
numbers, booleans and `undefined`. -/
inductive JsVal where
  | str (s : String)
  | obj
  | fn
  | num (n : Int)
  | boolean (b : Bool)
  | undef
deriving DecidableEq, Repr

/-- `typeof x === 'object'` (the sources only pass plain objects here). -/
def JsVal.isObj : JsVal → Bool
  | .obj => true
  | _ => false

/-- `typeof x === 'string'`. -/
def JsVal.isStr : JsVal → Bool
  | .str _ => true
  | _ => false

/-- `typeof x === 'function'`. -/
def JsVal.isFn : JsVal → Bool
  | .fn => true
  | _ => false

/-- `x.length` for a string value (only consulted after `typeof` checks). -/
def JsVal.strLen : JsVal → Nat
  | .str s => s.length
  | _ => 0

/-- The string payload of a string value (only consulted after `typeof`
checks establish the value is a string). -/
def JsVal.strVal : JsVal → String
  | .str s => s
  | _ => ""

/-- `_checkAllWithPassword(db, username, password, realm, cb)` from
`src/index.js` lines 31–44: the ordered structural precondition checks.
`some msg` models `throw new Error(msg)` / `throw new TypeError(msg)`;
`none` models returning without throwing. -/
def checkAllWithPassword (db username password realm cb : JsVal) : Option String :=
  if !db.isObj then some "db must be an object"
  else if !username.isStr then some "username must be a string"
  else if !password.isStr then some "password must be a string"
  else if !realm.isStr then some "realm must be a string"
  else if !cb.isFn then some "cb must be a function"
  else if username.strLen < 2 then some "username must be at least 2 characters"
  else if username.strLen > 128 then some "username can not exceed 128 characters"
  else if password.strLen < 6 then some "password must be at least 6 characters"
  else if realm.strLen < 1 then some "realm must be at least 1 character"
  else if realm.strLen > 128 then some "realm can not exceed 128 characters"
  else none

/-- The specification's precedence list of structural preconditions
(§4.1: resolver type, username type, password type, realm type, callback
type, username length low then high, password length, realm length low then
high), each paired with its diagnostic message.  Written from the spec's
words, to be compared with `checkAllWithPassword`. -/
def preconditionChecks (db username password realm cb : JsVal) : List (Bool × String) :=
  [ (!db.isObj, "db must be an object"),
    (!username.isStr, "username must be a string"),
    (!password.isStr, "password must be a string"),
    (!realm.isStr, "realm must be a string"),
    (!cb.isFn, "cb must be a function"),
    (decide (username.strLen < 2), "username must be at least 2 characters"),
    (decide (username.strLen > 128), "username can not exceed 128 characters"),
    (decide (password.strLen < 6), "password must be at least 6 characters"),
    (decide (realm.strLen < 1), "realm must be at least 1 character"),
    (decide (realm.strLen > 128), "realm can not exceed 128 characters") ]

/-- The first violated precondition in the specification's precedence
order, if any. -/
def firstViolation (db username password realm cb : JsVal) : Option String :=
  ((preconditionChecks db username password realm cb).find? (·.1)).map (·.2)

/-- A record fetched from the user database: an object given by its
`Object.keys` enumeration order. -/
abbrev DbRecord := List (String × JsVal)

/-- The lookup object `{realm, username}` the operations hand to the
resolver's `find`, `insert` and `updateHash` capabilities. -/
structure Lookup where
  realm : String
  username : String
deriving DecidableEq, Repr

/-- The pair of arguments the resolver's `find` capability passes to its
callback: `(err, user)`.  `none` in the first slot is a `null`/absent
error (falsy); `none` in the second slot is a `null` user (not found). -/
abbrev FindResp := Option String × Option DbRecord

/-- Arguments delivered to a caller's callback `(err, second)`; `none`
models an argument that was `null`/`undefined`/not passed. -/
abbrev CbArgs := Option String × Option Bool

/-- A collaborator call issued by an operation (resolver or bcrypt). -/
inductive Ev where
  | findCall (lookup : Lookup)
  | insertCall (user : Lookup)
  | hashCall (password : String) (cost : Nat)
  | updateHashCall (lookup : Lookup) (digest : String)
  | compareCall (password : String) (digest : JsVal)
deriving DecidableEq, Repr

/-- Set (or add) an own property on a JS object modelled as an assoc list
in property-creation order. -/
def setProp (ps : List (String × JsVal)) (k : String) (v : JsVal) : List (String × JsVal) :=
  match ps with
  | [] => [(k, v)]
  | (k', v') :: t => if k' = k then (k, v) :: t else (k', v') :: setProp t k v

/-- Read an own property; `undef` when absent. -/
def getProp (ps : List (String × JsVal)) (k : String) : JsVal :=
  match ps with
  | [] => .undef
  | (k', v) :: t => if k' = k then v else getProp t k

/-- The property names a plain JS object answers truthily even without an
own entry: the function-valued members of `Object.prototype` plus the
`__proto__` accessor (whose value is `Object.prototype` itself, an object
and hence truthy).  A bracket lookup such as `that.protectedProps[prop]`
or `that._illegalDbKeys[key]` walks the prototype chain, so these names
test truthy on the key tables of variants A and B exactly like the
tables' own keys. -/
def objectPrototypeKeys : List String :=
  ["constructor", "toString", "toLocaleString", "valueOf", "hasOwnProperty",
   "isPrototypeOf", "propertyIsEnumerable", "__defineGetter__",
   "__defineSetter__", "__lookupGetter__", "__lookupSetter__", "__proto__"]

/-- Truthiness of `table[k]` for a plain JS object `table` all of whose
own entries hold `true`: an own key, or a name inherited from
`Object.prototype`. -/
def truthyLookup (own : List String) (k : String) : Bool :=
  own.contains k || objectPrototypeKeys.contains k

/-- The identity handle of variants A and C: the bound `_realm` and
`_username` plus the dynamic own properties copied from fetched records
(`password` and any caller-defined fields).  `_db` is the resolver
reference and is left abstract (the oracles below stand for its
responses). -/
structure HandleA where
  realm : String
  username : String
  props : List (String × JsVal)
deriving DecidableEq, Repr

/-- `protectedProps` of variant A (`src/index.js` lines 89–93): record keys
that `find` refuses to copy onto the handle. -/
def protectedPropsA : List String := ["_db", "_realm", "_username"]

/-- The lookup `{realm: this._realm, username: this._username}`. -/
def lookupOf (h : HandleA) : Lookup := ⟨h.realm, h.username⟩

/-- The `Object.keys(user).forEach` loop of variant A's `find`
(`src/index.js` lines 118–120): the test `!that.protectedProps[prop]` is
a truthiness lookup (truthy for the three own keys and for names
inherited from `Object.prototype`), and every key it answers truthily is
silently skipped; every other field is copied onto the handle. -/
def copyPropsA (h : HandleA) (rec : DbRecord) : HandleA :=
  match rec with
  | [] => h
  | (k, v) :: t =>
    if truthyLookup protectedPropsA k then copyPropsA h t
    else copyPropsA { h with props := setProp h.props k v } t

/-- The body of variant A's `find` callback (`src/index.js` lines
114–125): on resolver error call back `(err, false)`; on a (truthy) user
copy its fields and call back `(null, true)`; otherwise `(null, false)`. -/
def findCbA (h : HandleA) (resp : FindResp) : HandleA × CbArgs :=
  match resp with
  | (some e, _) => (h, (some e, some false))
  | (none, some rec) => (copyPropsA h rec, (none, some true))
  | (none, none) => (h, (none, some false))

/-- `User.prototype.find` of variant A (`src/index.js` lines 105–126) as a
function of the resolver's `find` response: updated handle, callback
arguments, trace of collaborator calls. -/
def findA (h : HandleA) (resp : FindResp) : HandleA × CbArgs × List Ev :=
  let r := findCbA h resp
  (r.1, r.2, [Ev.findCall (lookupOf h)])

/-- The body of variant A's `exists` callback (`src/index.js` lines
143–147): `cb(err)` on error (second argument left `undefined`),
`cb(null, true)` on a truthy user, `cb(null, false)` otherwise. -/
def existsCbA (resp : FindResp) : CbArgs :=
  match resp with
  | (some e, _) => (some e, none)
  | (none, some _) => (none, some true)
  | (none, none) => (none, some false)

/-- `User.prototype.exists` of variant A (`src/index.js` lines 134–148): a
direct resolver lookup; the handle is never assigned to. -/
def existsA (h : HandleA) (resp : FindResp) : HandleA × CbArgs × List Ev :=
  (h, existsCbA resp, [Ev.findCall (lookupOf h)])

/-- The bcrypt responses `setPassword` consumes: `bcrypt.hash`'s
`(err, hash)` outcome and the resolver `updateHash`'s `(err)` outcome. -/
structure SetPwOracle where
  hash : Except String String
  updateHash : Option String
deriving Repr

/-- `User.prototype.setPassword` of variants A and C (`src/index.js` lines
186–201, `src/unnamed/part_000` lines 144–159, identical code):
`bcrypt.hash(password, 10, ...)`; on hash error `cb(err)`; on success
`updateHash({realm, username}, hash, cb)` with `cb` passed through. -/
def setPasswordA (h : HandleA) (password : String) (o : SetPwOracle) : CbArgs × List Ev :=
  match o.hash with
  | .error e => ((some e, none), [Ev.hashCall password 10])
  | .ok digest =>
      ((o.updateHash, none),
       [Ev.hashCall password 10, Ev.updateHashCall (lookupOf h) digest])

/-- The synchronous argument checks at the top of variant A's
`setPassword` (`src/index.js` lines 187–188) and `register` (lines
211–212): only the password's and callback's types are examined. -/
def pwCbChecks (password cb : JsVal) : Option String :=
  if !password.isStr then some "password must be a string"
  else if !cb.isFn then some "cb must be a function"
  else none

/-- The collaborator responses a `verifyPassword` run consumes. -/
structure VerifyOracle where
  find : FindResp
  compare : Except String Bool
deriving Repr

/-- `User.prototype.verifyPassword` of variants A and C (`src/index.js`
lines 158–175, `src/unnamed/part_000` lines 116–133, identical code):
`find` first (which copies record fields onto the handle), then
`bcrypt.compare(password, that.password)`; `cb(err)` on either error,
`cb(null, false)` when not found or the comparison rejects, `cb(null,
true)` exactly when the comparison confirms. -/
def verifyPasswordA (h : HandleA) (password : String) (o : VerifyOracle) :
    HandleA × CbArgs × List Ev :=
  let f := findA h o.find
  match f.2.1.1 with
  | some e => (f.1, (some e, none), f.2.2)
  | none =>
    if f.2.1.2 = some true then
      let digest := getProp f.1.props "password"
      let tr := f.2.2 ++ [Ev.compareCall password digest]
      match o.compare with
      | .error e => (f.1, (some e, none), tr)
      | .ok true => (f.1, (none, some true), tr)
      | .ok false => (f.1, (none, some false), tr)
    else (f.1, (none, some false), f.2.2)

/-- The collaborator responses a `register` run can consume: the
existence-check `find`, the `insert`, the bcrypt `hash`, the `updateHash`,
and the final re-fetch `find`. -/
structure RegOracle where
  find1 : FindResp
  insert : Option String
  hash : Except String String
  updateHash : Option String
  find2 : FindResp
deriving Repr

/-- The outcome of a `register` run: handle after the run, the caller's
callback arguments, and the trace of collaborator calls. -/
structure RegOut where
  handle : HandleA
  cb : CbArgs
  trace : List Ev
deriving DecidableEq, Repr

/-- `User.prototype.register` of variant A (`src/index.js` lines 210–233):
`that.exists(function(err, doesExist) { if (doesExist) ... })` — note the
callback tests only `doesExist` (truthy only when the user was found) and
never examines `err` — then `insert`, then `setPassword`, then
`that.find(cb)`. -/
def registerA (h : HandleA) (password : String) (o : RegOracle) : RegOut :=
  let user := lookupOf h
  let ex := existsCbA o.find1
  let t0 := [Ev.findCall user]
  if ex.2 = some true then
    ⟨h, (some "username already exists", none), t0⟩
  else
    let t1 := t0 ++ [Ev.insertCall user]
    match o.insert with
    | some e => ⟨h, (some e, none), t1⟩
    | none =>
      let sp := setPasswordA h password ⟨o.hash, o.updateHash⟩
      let t2 := t1 ++ sp.2
      match sp.1.1 with
      | some e => ⟨h, (some e, none), t2⟩
      | none =>
        let f := findA h o.find2
        ⟨f.1, f.2.1, t2 ++ f.2.2⟩

/-- `User.prototype.register` of variant C (`src/unnamed/part_000` lines
168–191): identical to variant A's except the existence check is
`that.find(function(err, found) { if (found) ... })` — again `err` is
never examined, and `find` has copied the record's fields onto the handle
in the already-exists case. -/
def registerC (h : HandleA) (password : String) (o : RegOracle) : RegOut :=
  let user := lookupOf h
  let f1 := findA h o.find1
  let h1 := f1.1
  let t0 := f1.2.2
  if f1.2.1.2 = some true then
    ⟨h1, (some "username already exists", none), t0⟩
  else
    let t1 := t0 ++ [Ev.insertCall user]
    match o.insert with
    | some e => ⟨h1, (some e, none), t1⟩
    | none =>
      let sp := setPasswordA h1 password ⟨o.hash, o.updateHash⟩
      let t2 := t1 ++ sp.2
      match sp.1.1 with
      | some e => ⟨h1, (some e, none), t2⟩
      | none =>
        let f := findA h1 o.find2
        ⟨f.1, f.2.1, t2 ++ f.2.2⟩

/-- The `User` constructor of variant A (`src/index.js` lines 78–94):
default the realm to `"_default"` when `undefined`, then run
`_checkAllWithPassword(db, username, 'xxxxxx', realm, function() {})` with
the placeholder password; on success bind `_realm` and `_username`. -/
def mkUserA (db username realm : JsVal) : Except String HandleA :=
  let realm' := if realm = .undef then JsVal.str "_default" else realm
  match checkAllWithPassword db username (.str "xxxxxx") realm' .fn with
  | some e => .error e
  | none => .ok ⟨realm'.strVal, username.strVal, []⟩

/-- The `User` constructor of variant C (`src/unnamed/part_000` lines
53–76): default the realm when `undefined`, then the inline type and
length checks in source order. -/
def mkUserC (db username realm : JsVal) : Except String HandleA :=
  let realm' := if realm = .undef then JsVal.str "_default" else realm
  if !db.isObj then .error "db must be an object"
  else if !username.isStr then .error "username must be a string"
  else if !realm'.isStr then .error "realm must be a string"
  else if username.strLen < 2 then .error "username must be at least 2 characters"
  else if username.strLen > 128 then .error "username can not exceed 128 characters"
  else if realm'.strLen < 1 then .error "realm must be at least 1 character"
  else if realm'.strLen > 128 then .error "realm can not exceed 128 characters"
  else .ok ⟨realm'.strVal, username.strVal, []⟩

/-- `_protectedDbKeys` of variant B (`src/index.js` lines 319–323): record
keys mapped onto the underscore-prefixed handle internals. -/
def protectedDbKeys : List String := ["realm", "username", "password"]

/-- A concrete handle used by the closed counterexamples and witnesses. -/
def hFoo : HandleA := ⟨"_default", "foo", []⟩

/-- A register oracle whose existence-check `find` reports an error and
whose remaining capabilities all succeed. -/
def oFindErr : RegOracle :=
  ⟨(some "db error", none), none, .ok "digest1", none,
   (none, some [("password", .str "digest1")])⟩

/-- C6: for every tuple of inputs violating more than one structural
precondition, `_checkAllWithPassword` fails with the error of the first
violated precondition in the specification's fixed precedence order
(resolver type, username type, password type, realm type, callback type,
username length low then high, password length, realm length low then
high). -/
theorem checkAll_follows_precedence (db username password realm cb : JsVal)
    (hviol : 2 ≤ ((preconditionChecks db username password realm cb).filter (·.1)).length) :
    checkAllWithPassword db username password realm cb =
      firstViolation db username password realm cb := by
  clear hviol
  by_cases h1 : db.isObj
  case neg => simp [checkAllWithPassword, firstViolation, preconditionChecks, List.find?_cons, h1]
  case pos =>
    by_cases h2 : username.isStr
    case neg => simp [checkAllWithPassword, firstViolation, preconditionChecks, List.find?_cons, h1, h2]
    case pos =>
      by_cases h3 : password.isStr
      case neg => simp [checkAllWithPassword, firstViolation, preconditionChecks, List.find?_cons, h1, h2, h3]
      case pos =>
        by_cases h4 : realm.isStr
        case neg => simp [checkAllWithPassword, firstViolation, preconditionChecks, List.find?_cons, h1, h2, h3, h4]
        case pos =>
          by_cases h5 : cb.isFn
          case neg => simp [checkAllWithPassword, firstViolation, preconditionChecks, List.find?_cons, h1, h2, h3, h4, h5]
          case pos =>
            by_cases h6 : username.strLen < 2
            case pos => simp [checkAllWithPassword, firstViolation, preconditionChecks, List.find?_cons, h1, h2, h3, h4, h5, h6]
            case neg =>
              by_cases h7 : username.strLen > 128
              case pos => simp [checkAllWithPassword, firstViolation, preconditionChecks, List.find?_cons, h1, h2, h3, h4, h5, h6, h7]
              case neg =>
                by_cases h8 : password.strLen < 6
                case pos => simp [checkAllWithPassword, firstViolation, preconditionChecks, List.find?_cons, h1, h2, h3, h4, h5, h6, h7, h8]
                case neg =>
                  by_cases h9 : realm.strLen < 1
                  case pos => simp [checkAllWithPassword, firstViolation, preconditionChecks, List.find?_cons, h1, h2, h3, h4, h5, h6, h7, h8, h9]
                  case neg =>
                    by_cases h10 : realm.strLen > 128
                    case pos => simp [checkAllWithPassword, firstViolation, preconditionChecks, List.find?_cons, h1, h2, h3, h4, h5, h6, h7, h8, h9, h10]
                    case neg =>
                      simp [checkAllWithPassword, firstViolation, preconditionChecks, List.find?_cons, h1, h2, h3, h4, h5, h6, h7, h8, h9, h10]

/-- Witness for C6: a `db` that is not an object together with a too-short
username violate two preconditions; the resolver-type error wins. -/
theorem checkAll_follows_precedence_witness :
    checkAllWithPassword (.str "nope") (.str "a") (.str "secr3t") (.str "r") .fn =
      firstViolation (.str "nope") (.str "a") (.str "secr3t") (.str "r") .fn :=
  checkAll_follows_precedence (.str "nope") (.str "a") (.str "secr3t") (.str "r") .fn
    (by decide)

/-- C7: on a `bcrypt.hash` failure `setPassword` delivers the error to the
caller and never calls the resolver's `updateHash` (the trace holds the
hash call only, so no stored state changes); on hash success it calls
`updateHash` with the `{realm, username}` lookup and the fresh digest, and
the caller's callback receives `updateHash`'s own outcome. -/
theorem setPassword_hash_gate (h : HandleA) (password : String) (o : SetPwOracle) :
    (∀ e, o.hash = Except.error e →
       setPasswordA h password o = ((some e, none), [Ev.hashCall password 10])) ∧
    (∀ d, o.hash = Except.ok d →
       setPasswordA h password o =
         ((o.updateHash, none),
          [Ev.hashCall password 10, Ev.updateHashCall (lookupOf h) d])) := by
  constructor
  · intro e he; simp [setPasswordA, he]
  · intro d hd; simp [setPasswordA, hd]

/-- Witness for C7 at a failing hash primitive. -/
theorem setPassword_hash_gate_witness :
    setPasswordA hFoo "secr3t" ⟨Except.error "boom", none⟩ =
      ((some "boom", none), [Ev.hashCall "secr3t" 10]) :=
  (setPassword_hash_gate hFoo "secr3t" ⟨Except.error "boom", none⟩).1 "boom" rfl

/-- C10: `exists` performs the lookup directly against the resolver and
returns the handle unchanged for every resolver response, passing errors
through, mapping a record to `true` and its absence to `false` — while
`find` on the same record does mutate the handle. -/
theorem existsA_frame_effect :
    (∀ (h : HandleA) (resp : FindResp), (existsA h resp).1 = h) ∧
    (∀ (h : HandleA) (resp : FindResp),
       (existsA h resp).2.2 = [Ev.findCall (lookupOf h)]) ∧
    (∀ (h : HandleA) (e : String) (u : Option DbRecord),
       (existsA h (some e, u)).2.1 = (some e, none)) ∧
    (∀ (h : HandleA) (rec : DbRecord),
       (existsA h (none, some rec)).2.1 = (none, some true)) ∧
    (∀ h : HandleA, (existsA h (none, none)).2.1 = (none, some false)) ∧
    (findA hFoo (none, some [("color", JsVal.str "red")])).1 ≠ hFoo := by
  refine ⟨fun h resp => rfl, fun h resp => rfl, fun h e u => rfl,
    fun h rec => rfl, fun h => rfl, ?_⟩
  decide

/-- C1 (code bug): when the existence-check `find` reports an error,
variant A's `register` (whose `exists` callback tests only `doesExist`)
and variant C's (whose `find` callback tests only `found`) both swallow
the error — the run proceeds to `insert` and, with the remaining
collaborators succeeding, reports success to the caller.  The spec
requires the error to be propagated and `insert` not to be called. -/
theorem register_swallows_existence_error :
    oFindErr.find1 = (some "db error", none) ∧
    (registerA hFoo "secr3t" oFindErr).cb = (none, some true) ∧
    Ev.insertCall (lookupOf hFoo) ∈ (registerA hFoo "secr3t" oFindErr).trace ∧
    (registerC hFoo "secr3t" oFindErr).cb = (none, some true) ∧
    Ev.insertCall (lookupOf hFoo) ∈ (registerC hFoo "secr3t" oFindErr).trace := by
  decide

/-- C3: when the resolver's `find` reports an existing record (no error),
`register` fails with the specific "username already exists" error and its
collaborator trace is the lone existence-check `find` call — neither
`insert` nor `updateHash` is invoked, so the stored record and its digest
are untouched.  Proved for variant A (full run equality, handle also
unchanged) and variant C (callback and trace). -/
theorem register_already_exists (h : HandleA) (password : String) (rec : DbRecord)
    (o : RegOracle) (hfound : o.find1 = (none, some rec)) :
    registerA h password o =
      ⟨h, (some "username already exists", none), [Ev.findCall (lookupOf h)]⟩ ∧
    (registerC h password o).cb = (some "username already exists", none) ∧
    (registerC h password o).trace = [Ev.findCall (lookupOf h)] := by
  refine ⟨?_, ?_, ?_⟩ <;> simp [registerA, registerC, existsCbA, findA, findCbA, hfound]

/-- Witness for C3 at a concrete stored record. -/
theorem register_already_exists_witness :
    registerA hFoo "secr3t"
        ⟨(none, some [("password", JsVal.str "d0")]), none, Except.ok "d1", none,
         (none, none)⟩ =
      ⟨hFoo, (some "username already exists", none), [Ev.findCall (lookupOf hFoo)]⟩ :=
  (register_already_exists hFoo "secr3t" [("password", JsVal.str "d0")] _ rfl).1

/-- C2: `verifyPassword` calls back `(null, false)` both when no record
exists and when a record exists but `bcrypt.compare` rejects the password,
and `(null, true)` exactly when `compare` confirms it — a missing identity
and a wrong password are indistinguishable from the callback arguments. -/
theorem verifyPassword_indistinguishable (h : HandleA) (password : String)
    (o : VerifyOracle) :
    (o.find = (none, none) → (verifyPasswordA h password o).2.1 = (none, some false)) ∧
    (∀ rec, o.find = (none, some rec) → o.compare = Except.ok false →
       (verifyPasswordA h password o).2.1 = (none, some false)) ∧
    ((verifyPasswordA h password o).2.1 = (none, some true) ↔
       (∃ rec, o.find = (none, some rec)) ∧ o.compare = Except.ok true) := by
  rcases o with ⟨⟨e, u⟩, cmp⟩
  rcases e with _ | e <;> rcases u with _ | rec <;> rcases cmp with ce | b <;>
      (try cases b) <;>
    simp [verifyPasswordA, findA, findCbA]

/-- Witness for C2: a stored record with a digest plus a rejecting compare
yields `(null, false)`. -/
theorem verifyPassword_indistinguishable_witness :
    (verifyPasswordA hFoo "wrong"
        ⟨(none, some [("password", JsVal.str "d0")]), Except.ok false⟩).2.1 =
      (none, some false) :=
  (verifyPassword_indistinguishable hFoo "wrong"
      ⟨(none, some [("password", JsVal.str "d0")]), Except.ok false⟩).2.1
    [("password", JsVal.str "d0")] rfl rfl

/-- C5 counterexample: the five-character password "abc" (length 3 < 6)
passes `setPassword`'s synchronous checks (which test only `typeof`) and
the operation proceeds straight to `bcrypt.hash` and `updateHash` — no
synchronous length rejection happens in the instance methods. -/
theorem short_password_reaches_hash :
    pwCbChecks (.str "abc") .fn = none ∧
    ("abc" : String).length < 6 ∧
    (setPasswordA hFoo "abc" ⟨Except.ok "digestX", none⟩).2 =
      [Ev.hashCall "abc" 10, Ev.updateHashCall (lookupOf hFoo) "digestX"] := by
  refine ⟨rfl, by decide, rfl⟩

/-- C5 (amended): only `_checkAllWithPassword` rejects string passwords
shorter than 6 characters synchronously; the instance methods
`setPassword` and `register` check only that the password is a string and
invoke the hash primitive for any string password, however short. -/
theorem password_length_check_only_in_checkAll (db username realm cb : JsVal)
    (p : String) (hdb : db.isObj = true) (hu : username.isStr = true)
    (hr : realm.isStr = true) (hc : cb.isFn = true) (hul : 2 ≤ username.strLen)
    (huh : username.strLen ≤ 128) (hp : p.length < 6) :
    checkAllWithPassword db username (.str p) realm cb =
      some "password must be at least 6 characters" ∧
    pwCbChecks (.str p) .fn = none ∧
    (∀ (h : HandleA) (o : SetPwOracle),
       ((setPasswordA h p o).2).head? = some (Ev.hashCall p 10)) ∧
    (∀ (h : HandleA) (o : RegOracle), o.find1 = (none, none) → o.insert = none →
       Ev.hashCall p 10 ∈ (registerA h p o).trace) := by
  refine ⟨?_, rfl, ?_, ?_⟩
  · have h1 : ¬ username.strLen < 2 := by omega
    have h2 : ¬ username.strLen > 128 := by omega
    simp [checkAllWithPassword, hdb, hu, hr, hc, h1, h2]
    simp [JsVal.strLen, JsVal.isStr, hp]
  · intro h o
    rcases o with ⟨hh, u⟩
    rcases hh with he | hd <;> simp [setPasswordA]
  · intro h o h1 h2
    rcases o with ⟨f1, ins, hh, u, f2⟩
    cases h1; cases h2
    rcases hh with he | hd
    · simp [registerA, existsCbA, setPasswordA]
    · rcases u with _ | ue
      · rcases f2 with ⟨e2, u2⟩
        rcases e2 with _ | e2 <;> rcases u2 with _ | rec2 <;>
          simp [registerA, existsCbA, setPasswordA, findA, findCbA]
      · simp [registerA, existsCbA, setPasswordA]

/-- Witness for the amended C5 at a concrete short password. -/
theorem password_length_check_only_in_checkAll_witness :
    checkAllWithPassword .obj (.str "foo") (.str "abc") (.str "bar") .fn =
      some "password must be at least 6 characters" :=
  (password_length_check_only_in_checkAll .obj (.str "foo") (.str "bar") .fn "abc"
      rfl rfl rfl rfl (by decide) (by decide) (by decide)).1

/-- C4 counterexample: a registration can complete successfully (the caller
is told `(null, true)`) even though the existence-check step itself failed
with a resolver error — so not every step of a successful registration ran
only after the previous one succeeded. -/
theorem register_succeeds_after_failed_check :
    (registerA hFoo "secr3t" oFindErr).cb = (none, some true) ∧
    oFindErr.find1.1 = some "db error" := by
  decide

/-- C4 (amended): every successful registration issues exactly the
sequence existence-check `find`, `insert` of the bare `{realm, username}`
record, `hash`, `updateHash`, re-fetch `find` whose outcome is what the
caller receives; the insert step is gated only on the existence check not
reporting an existing identity (an errored check also lets it proceed),
and every failure at the insert, set-password or re-fetch step is
surfaced to the caller. -/
theorem register_success_sequence (h : HandleA) (password : String) (o : RegOracle) :
    ((registerA h password o).cb = (none, some true) →
       (existsCbA o.find1).2 ≠ some true ∧ o.insert = none ∧ o.updateHash = none ∧
       ∃ digest rec, o.hash = Except.ok digest ∧ o.find2 = (none, some rec) ∧
         (registerA h password o).trace =
           [Ev.findCall (lookupOf h), Ev.insertCall (lookupOf h),
            Ev.hashCall password 10, Ev.updateHashCall (lookupOf h) digest,
            Ev.findCall (lookupOf h)] ∧
         (registerA h password o).cb = (findCbA h o.find2).2) ∧
    (∀ e, (existsCbA o.find1).2 ≠ some true → o.insert = some e →
       (registerA h password o).cb = (some e, none) ∧
       (registerA h password o).trace =
         [Ev.findCall (lookupOf h), Ev.insertCall (lookupOf h)]) ∧
    (∀ e, (existsCbA o.find1).2 ≠ some true → o.insert = none →
       o.hash = Except.error e →
       (registerA h password o).cb = (some e, none) ∧
       ∀ l d, Ev.updateHashCall l d ∉ (registerA h password o).trace) ∧
    (∀ e d, (existsCbA o.find1).2 ≠ some true → o.insert = none →
       o.hash = Except.ok d → o.updateHash = some e →
       (registerA h password o).cb = (some e, none)) ∧
    (∀ e u, (existsCbA o.find1).2 ≠ some true → o.insert = none →
       (∃ d, o.hash = Except.ok d) → o.updateHash = none → o.find2 = (some e, u) →
       (registerA h password o).cb = (some e, some false)) := by
  rcases o with ⟨⟨e1, u1⟩, ins, hh, upd, ⟨e2, u2⟩⟩
  refine ⟨?_, ?_, ?_, ?_, ?_⟩
  · intro hsucc
    rcases e1 with _ | e1 <;> rcases u1 with _ | rec1 <;>
      rcases ins with _ | ie <;> rcases hh with he | hd <;>
      rcases upd with _ | ue <;> rcases e2 with _ | e2 <;> rcases u2 with _ | rec2 <;>
      simp_all [registerA, existsCbA, setPasswordA, findA, findCbA]
  · intro e hne hins
    rcases e1 with _ | e1 <;> rcases u1 with _ | rec1 <;>
      simp_all [registerA, existsCbA]
  · intro e hne hins hhash
    rcases e1 with _ | e1 <;> rcases u1 with _ | rec1 <;> rcases e2 with _ | e2 <;>
      rcases u2 with _ | rec2 <;>
      simp_all [registerA, existsCbA, setPasswordA, findA, findCbA]
  · intro e d hne hins hhash hupd
    rcases e1 with _ | e1 <;> rcases u1 with _ | rec1 <;>
      simp_all [registerA, existsCbA, setPasswordA]
  · intro e u hne hins hhash hupd hf2
    obtain ⟨d, hd⟩ := hhash
    rcases e1 with _ | e1 <;> rcases u1 with _ | rec1 <;>
      simp_all [registerA, existsCbA, setPasswordA, findA, findCbA]

/-- Witness for the amended C4: a fully successful run delivers the
re-fetch outcome and issues the five-call sequence. -/
theorem register_success_sequence_witness :
    (registerA hFoo "secr3t"
        ⟨(none, none), none, Except.ok "d1", none,
         (none, some [("password", JsVal.str "d1")])⟩).cb = (none, some true) ∧
    (registerA hFoo "secr3t"
        ⟨(none, none), none, Except.ok "d1", none,
         (none, some [("password", JsVal.str "d1")])⟩).trace =
      [Ev.findCall (lookupOf hFoo), Ev.insertCall (lookupOf hFoo),
       Ev.hashCall "secr3t" 10, Ev.updateHashCall (lookupOf hFoo) "d1",
       Ev.findCall (lookupOf hFoo)] := by
  have hs : (registerA hFoo "secr3t"
      ⟨(none, none), none, Except.ok "d1", none,
       (none, some [("password", JsVal.str "d1")])⟩).cb = (none, some true) := by decide
  obtain ⟨-, -, -, d, rec, hdq, -, htr, -⟩ :=
    (register_success_sequence hFoo "secr3t"
      ⟨(none, none), none, Except.ok "d1", none,
       (none, some [("password", JsVal.str "d1")])⟩).1 hs
  injection hdq with hdd
  subst hdd
  exact ⟨hs, htr⟩

theorem checkAll_ctor (u r : String) :
    checkAllWithPassword .obj (.str u) (.str "xxxxxx") (.str r) .fn =
      (if u.length < 2 then some "username must be at least 2 characters"
       else if u.length > 128 then some "username can not exceed 128 characters"
       else if r.length < 1 then some "realm must be at least 1 character"
       else if r.length > 128 then some "realm can not exceed 128 characters"
       else none) := by
  have h6 : ¬ (("xxxxxx" : String).length < 6) := by decide
  simp [checkAllWithPassword, JsVal.isObj, JsVal.isStr, JsVal.isFn, JsVal.strLen, h6]

/-- C9: constructing a handle with the realm unspecified binds it to the
realm "_default"; a string username of length outside [2,128] or an
explicit string realm of length outside [1,128] makes construction fail
with the length-specific error.  Proved for the constructors of variant A
(`src/index.js` lines 78–94) and variant C (`src/unnamed/part_000` lines
53–76). -/
theorem mkUser_default_realm_and_length_errors :
    (∀ u : String, 2 ≤ u.length → u.length ≤ 128 →
       mkUserA .obj (.str u) .undef = .ok ⟨"_default", u, []⟩ ∧
       mkUserC .obj (.str u) .undef = .ok ⟨"_default", u, []⟩) ∧
    (∀ u r : String, u.length < 2 →
       mkUserA .obj (.str u) (.str r) = .error "username must be at least 2 characters" ∧
       mkUserC .obj (.str u) (.str r) = .error "username must be at least 2 characters") ∧
    (∀ u r : String, 128 < u.length →
       mkUserA .obj (.str u) (.str r) = .error "username can not exceed 128 characters" ∧
       mkUserC .obj (.str u) (.str r) = .error "username can not exceed 128 characters") ∧
    (∀ u r : String, 2 ≤ u.length → u.length ≤ 128 → r.length < 1 →
       mkUserA .obj (.str u) (.str r) = .error "realm must be at least 1 character" ∧
       mkUserC .obj (.str u) (.str r) = .error "realm must be at least 1 character") ∧
    (∀ u r : String, 2 ≤ u.length → u.length ≤ 128 → 128 < r.length →
       mkUserA .obj (.str u) (.str r) = .error "realm can not exceed 128 characters" ∧
       mkUserC .obj (.str u) (.str r) = .error "realm can not exceed 128 characters") := by
  have hd1 : ¬ (("_default" : String).length < 1) := by decide
  have hd2 : ¬ (("_default" : String).length > 128) := by decide
  refine ⟨?_, ?_, ?_, ?_, ?_⟩
  · intro u h2 h128
    have hna : ¬ u.length < 2 := by omega
    have hnb : ¬ u.length > 128 := by omega
    constructor
    · simp [mkUserA, checkAll_ctor, hna, hnb, hd1, hd2, JsVal.strVal]
    · simp [mkUserC, JsVal.isObj, JsVal.isStr, JsVal.strLen, JsVal.strVal,
        hna, hnb, hd1, hd2]
  · intro u r hu
    constructor
    · simp [mkUserA, checkAll_ctor, hu]
    · simp [mkUserC, JsVal.isObj, JsVal.isStr, JsVal.strLen, hu]
  · intro u r hu
    have hna : ¬ u.length < 2 := by omega
    constructor
    · simp [mkUserA, checkAll_ctor, hna, hu]
    · simp [mkUserC, JsVal.isObj, JsVal.isStr, JsVal.strLen, hna, hu]
  · intro u r h2 h128 hr
    have hna : ¬ u.length < 2 := by omega
    have hnb : ¬ u.length > 128 := by omega
    constructor
    · simp [mkUserA, checkAll_ctor, hna, hnb, hr]
    · simp [mkUserC, JsVal.isObj, JsVal.isStr, JsVal.strLen, hna, hnb, hr]
  · intro u r h2 h128 hr
    have hna : ¬ u.length < 2 := by omega
    have hnb : ¬ u.length > 128 := by omega
    have hnc : ¬ r.length < 1 := by omega
    constructor
    · simp [mkUserA, checkAll_ctor, hna, hnb, hnc, hr]
    · simp [mkUserC, JsVal.isObj, JsVal.isStr, JsVal.strLen, hna, hnb, hnc, hr]

/-- Witness for C9: the default realm at a concrete username. -/
theorem mkUser_default_realm_witness :
    mkUserA .obj (.str "foo") .undef = .ok ⟨"_default", "foo", []⟩ :=
  ((mkUser_default_realm_and_length_errors).1 "foo" (by decide) (by decide)).1

